import Mathlib

/-!
Verification development for the RevoFun mini-games repository: a shallow
embedding of the localStorage-backed score/profile store (js/main.js and its
revised copy), the Number Guessing controller, the Rock-Paper-Scissors
controller and the Memory Match controller, together with theorems settling
the specification claims.

Conventions of the embedding:
- JS numbers that the code only ever uses as integers are `Int` (or `Nat`
  where the code cannot go negative).
- Timestamps are carried in elapsed seconds; the code rounds milliseconds to
  seconds before using them, and every claim is phrased in seconds.
- Randomness (secret number, computer choice, shuffled deck) is an oracle
  parameter of the step that draws it.
- DOM rendering is dropped; DOM *classes* that the logic branches on
  (flipped / matched / disabled on memory cards) are modelled as booleans.
- String length is codepoint length and trim is Unicode-whitespace trim;
  all the names involved in the claims are ASCII, where both coincide with
  the JS notions.
-/

/-- JS `String.prototype.trim`: strip leading and trailing whitespace,
modelled directly over the character list so that it computes. -/
def jsTrim (s : String) : String :=
  ⟨((s.data.dropWhile Char.isWhitespace).reverse.dropWhile
      Char.isWhitespace).reverse⟩

namespace Store

/-- A stored score entry: `player`, `score`, `date` plus the game-specific
extra fields (spread into the object after the base fields, so a numeric
`score` key in the extras overrides the base score, as JS spread does). -/
structure ScoreEntry where
  player : String
  score : Int
  date : Nat
  extra : List (String × Int)
deriving Repr, DecidableEq

/-- Builds the score entry exactly as `saveGameScore` does:
`{ player, score, date, ...additionalData }`; a `"score"` key among the
extra fields wins over the base score because the spread comes last. -/
def mkScoreEntry (player : String) (score : Int) (date : Nat)
    (extra : List (String × Int)) : ScoreEntry :=
  { player := player
    score := match extra.lookup "score" with
      | some v => v
      | none => score
    date := date
    extra := extra }

/-- The order realised by the comparator `(a, b) => b.score - a.score`:
`a` sorts before `b` when `b.score ≤ a.score` (descending by score). -/
def scoreGe (a b : ScoreEntry) : Prop := b.score ≤ a.score

instance : DecidableRel scoreGe := fun a b =>
  inferInstanceAs (Decidable (b.score ≤ a.score))

instance : IsTotal ScoreEntry scoreGe :=
  ⟨fun a b => le_total b.score a.score⟩

instance : IsTrans ScoreEntry scoreGe :=
  ⟨fun _ _ _ h1 h2 => le_trans h2 h1⟩

/-- The in-memory `gameScores` map (game name to score list); a game that
was never written holds `[]`, matching `gameScores[gameName] || []`. -/
def Scores : Type := String → List ScoreEntry

/-- Fresh store: no scores for any game. -/
def initScores : Scores := fun _ => []

/-- Embeds `saveGameScore(gameName, score, additionalData)`: append the new entry,
sort that list descending by score (the JS comparison sort is modelled as
`List.insertionSort` of the comparator order), keep the top 10, and return
the updated map with the created entry. -/
def saveGameScore (scores : Scores) (gameName : String) (score : Int)
    (player : String) (date : Nat) (extra : List (String × Int)) :
    Scores × ScoreEntry :=
  let entry := mkScoreEntry player score date extra
  let lst := scores gameName ++ [entry]
  let lst := (List.insertionSort scoreGe lst).take 10
  (fun g => if g = gameName then lst else scores g, entry)

/-- Embeds `getLeaderboard(gameName)`: the stored ordered sequence, or `[]`. -/
def getLeaderboard (scores : Scores) (gameName : String) : List ScoreEntry :=
  scores gameName

/-- One `saveScore` call with its arbitrary arguments. -/
structure SaveCall where
  gameName : String
  score : Int
  player : String
  date : Nat
  extra : List (String × Int)

/-- Replays a sequence of `saveScore` calls against a store state. -/
def runSaves (scores : Scores) : List SaveCall → Scores
  | [] => scores
  | c :: cs =>
      runSaves (saveGameScore scores c.gameName c.score c.player c.date c.extra).1 cs

/-- The user profile record written by `setCurrentUser`. -/
structure UserProfile where
  name : String
  joinDate : Nat
  totalGamesPlayed : Nat
deriving Repr, DecidableEq

/-- The validation failures `setCurrentUser` raises. -/
inductive ValidationError where
  | invalidName
  | emptyName
  | nameTooLong
deriving Repr, DecidableEq

/-- Embeds `setCurrentUser(name)` of the revised main file: throws when `name` is
falsy (the empty string), when the trimmed name is empty, or when it is
longer than 50 characters; otherwise builds the profile from the trimmed
name with `joinDate = now` and `totalGamesPlayed = 0`. The new profile
overwrites whatever profile was current. -/
def setCurrentUser (name : String) (now : Nat) :
    Except ValidationError UserProfile :=
  if name = "" then .error .invalidName
  else
    let trimmedName := jsTrim name
    if trimmedName.length = 0 then .error .emptyName
    else if trimmedName.length > 50 then .error .nameTooLong
    else .ok { name := trimmedName, joinDate := now, totalGamesPlayed := 0 }

end Store

namespace Guess

/-- Round state of the Number Guessing controller (the module-level game
variables of the number-guessing script). -/
structure GState where
  secretNumber : Int
  attemptsLeft : Int
  gameStarted : Bool
  gameEnded : Bool
  startTime : Nat
deriving Repr, DecidableEq

/-- Persistence-store side effects a controller step performs. -/
inductive Effect where
  | saveScore (score : Int)
  | incrementGamesPlayed
deriving Repr, DecidableEq

/-- Embeds `calculateScore(attemptsLeft, timeTaken)`:
attempts left times 100, plus a time bonus capped below at 0, plus a
difficulty bonus of 50 per attempt used. -/
def calculateScore (attemptsLeft timeTaken : Int) : Int :=
  let attemptScore := attemptsLeft * 100
  let timeBonus := max 0 (500 - timeTaken)
  let difficultyBonus := (5 - attemptsLeft) * 50
  attemptScore + timeBonus + difficultyBonus

/-- Embeds `startGame()`: draw the secret (the random draw is the `secret`
oracle argument), reset attempts to 5 and record the start time. -/
def startGame (s : GState) (secret : Int) (now : Nat) : GState :=
  { s with
    secretNumber := secret
    attemptsLeft := 5
    gameStarted := true
    gameEnded := false
    startTime := now }

/-- The result of `parseInt` on the guess input: `none` for an empty or
non-numeric field, `some g` for a parsed integer. -/
def GuessInput : Type := Option Int

/-- Embeds `handleGuess()`: reject when the game is not running, when parsing
fails, when the guess is out of `[1,100]`, or when the secret is corrupt
(each rejection returns before any mutation). Otherwise decrement
`attemptsLeft` first; then a guess equal to the secret wins (saving
`calculateScore` of the already-decremented `attemptsLeft` and the elapsed
seconds, then incrementing games played), exhausted attempts lose with no
effect, and anything else stays in progress emitting only a hint. -/
def handleGuess (s : GState) (input : GuessInput) (now : Nat) :
    GState × List Effect :=
  if !s.gameStarted || s.gameEnded then (s, [])
  else match input with
    | none => (s, [])
    | some g =>
      if g < 1 || g > 100 then (s, [])
      else if s.secretNumber < 1 || s.secretNumber > 100 then (s, [])
      else
        let s := { s with attemptsLeft := s.attemptsLeft - 1 }
        if g = s.secretNumber then
          let timeTaken : Int := (now : Int) - (s.startTime : Int)
          let score := calculateScore s.attemptsLeft timeTaken
          ({ s with gameEnded := true },
           [.saveScore score, .incrementGamesPlayed])
        else if s.attemptsLeft = 0 then
          ({ s with gameEnded := true }, [])
        else (s, [])

/-- Replays a list of timed guesses, collecting the emitted effects. -/
def runGuesses (s : GState) : List (GuessInput × Nat) → GState × List Effect
  | [] => (s, [])
  | (input, now) :: rest =>
      let (s1, eff1) := handleGuess s input now
      let (s2, eff2) := runGuesses s1 rest
      (s2, eff1 ++ eff2)

/-- The state reached by starting at secret 50 and playing the specified
scenario 10, 90, 40, 60, 50, with the winning guess at `t` seconds. -/
def scenarioState (t : Nat) : GState × List Effect :=
  let s0 : GState :=
    { secretNumber := 0, attemptsLeft := 5, gameStarted := false
      gameEnded := false, startTime := 0 }
  runGuesses (startGame s0 50 0)
    [(some 10, 0), (some 90, 0), (some 40, 0), (some 60, 0), (some 50, t)]

end Guess

namespace RPS

/-- The three playable tokens. -/
inductive Choice where
  | rock
  | paper
  | scissors
deriving Repr, DecidableEq

/-- Round state of the Rock-Paper-Scissors controller. -/
structure RState where
  playerScore : Int
  computerScore : Int
  currentRound : Nat
  gameStarted : Bool
  gameEnded : Bool
deriving Repr, DecidableEq

/-- Persistence-store side effects a controller step performs. -/
inductive Effect where
  | saveScore (score : Int)
  | incrementGamesPlayed
deriving Repr, DecidableEq

/-- Constant `WINNING_SCORE`. -/
def WINNING_SCORE : Int := 3

/-- Who wins a round. -/
inductive RoundWinner where
  | player
  | computer
  | tie
deriving Repr, DecidableEq

/-- Embeds `determineWinner(playerChoice, computerChoice)`: equal choices tie;
rock beats scissors, scissors beat paper, paper beats rock; otherwise the
computer wins. -/
def determineWinner (playerChoice computerChoice : Choice) : RoundWinner :=
  if playerChoice = computerChoice then .tie
  else if (playerChoice = .rock ∧ computerChoice = .scissors) ∨
          (playerChoice = .scissors ∧ computerChoice = .paper) ∨
          (playerChoice = .paper ∧ computerChoice = .rock) then .player
  else .computer

/-- Embeds `calculateFinalScore(winner)`: 1000 for a player win, 100 otherwise,
plus 100 per round of margin under the threshold, plus 50 per player
point. -/
def calculateFinalScore (s : RState) (playerWon : Bool) : Int :=
  let score : Int := if playerWon then 1000 else 100
  let score := score + (WINNING_SCORE - min s.playerScore s.computerScore) * 100
  score + s.playerScore * 50

/-- Embeds `endGame(winner)`: mark the game ended, save the final score, and
increment games played; both effects fire for wins and losses alike. -/
def endGame (s : RState) (playerWon : Bool) : RState × List Effect :=
  let finalScore := calculateFinalScore s playerWon
  ({ s with gameEnded := true },
   [.saveScore finalScore, .incrementGamesPlayed])

/-- Embeds the `playRound()` score update: the round winner takes one point; ties
change no score. -/
def playRound (s : RState) (playerChoice computerChoice : Choice) : RState :=
  match determineWinner playerChoice computerChoice with
  | .player => { s with playerScore := s.playerScore + 1 }
  | .computer => { s with computerScore := s.computerScore + 1 }
  | .tie => s

/-- Embeds `checkGameWinner()`: at the threshold (player first) the game ends;
otherwise the round counter advances and play continues. -/
def checkGameWinner (s : RState) : RState × List Effect :=
  if s.playerScore ≥ WINNING_SCORE then endGame s true
  else if s.computerScore ≥ WINNING_SCORE then endGame s false
  else ({ s with currentRound := s.currentRound + 1 }, [])

end RPS

namespace Memory

/-- Constant `TOTAL_PAIRS`. -/
def TOTAL_PAIRS : Nat := 4

/-- One card object of the `cards` array: identity, symbol (indexed into
`CARD_SYMBOLS`) and the data-side matched flag. -/
structure MCard where
  id : Nat
  symbol : Nat
  matched : Bool
deriving Repr, DecidableEq

/-- The CSS classes of one card element that the logic branches on. -/
structure MElem where
  flipped : Bool
  matchedCls : Bool
  disabled : Bool
deriving Repr, DecidableEq

/-- One entry of `flippedCards`: the generation of the grid whose card and
element objects it references (JS object references survive the grid being
rebuilt; mutations through a stale reference do not touch the current
arrays), the index of that card, and its symbol. -/
structure Flipped where
  gen : Nat
  idx : Nat
  symbol : Nat
deriving Repr, DecidableEq

/-- Round state of the Memory Match controller. `gen` counts grid
rebuilds, modelling which array objects references point at; `pending`
records whether a `checkForMatch` timeout is scheduled. -/
structure MState where
  cards : List MCard
  elems : List MElem
  flippedCards : List Flipped
  matchedPairs : Nat
  moveCount : Nat
  gameStarted : Bool
  gameEnded : Bool
  startTime : Nat
  gen : Nat
  pending : Bool
deriving Repr, DecidableEq

/-- Persistence-store side effects a controller step performs. -/
inductive Effect where
  | saveScore (score : Int)
  | incrementGamesPlayed
deriving Repr, DecidableEq

/-- The pre-shuffle deck built by `initializeGameGrid`: for each of the 4
pairs, two cards with consecutive ids and the same symbol. -/
def cardData : List MCard :=
  (List.range TOTAL_PAIRS).flatMap fun i =>
    [{ id := i * 2, symbol := i, matched := false },
     { id := i * 2 + 1, symbol := i, matched := false }]

/-- A fresh, face-down element for every card. -/
def freshElems (n : Nat) : List MElem :=
  List.replicate n { flipped := false, matchedCls := false, disabled := false }

/-- Embeds `initializeGameGrid()`: rebuild `cards` from a shuffle of the deck (the
random permutation is the `deck` oracle argument) and fresh elements; the
old array objects are superseded, so the generation advances. -/
def initializeGameGrid (s : MState) (deck : List MCard) : MState :=
  { s with
    cards := deck
    elems := freshElems deck.length
    gen := s.gen + 1 }

/-- Embeds `disableAllCards()`: add the disabled class to every element that is
neither flipped nor matched (queried from the current grid). -/
def disableAllCards (elems : List MElem) : List MElem :=
  elems.map fun e =>
    if !e.flipped && !e.matchedCls then { e with disabled := true } else e

/-- Embeds `enableAllCards()`: remove the disabled class from every element that
is not matched (queried from the current grid). -/
def enableAllCards (elems : List MElem) : List MElem :=
  elems.map fun e =>
    if !e.matchedCls then { e with disabled := false } else e

/-- Embeds `startGame()`: clear the selection, counters and flags, stamp the
start time, reset the data flag of every card and the classes of every element. -/
def startGame (s : MState) (now : Nat) : MState :=
  { s with
    flippedCards := []
    matchedPairs := 0
    moveCount := 0
    gameStarted := true
    gameEnded := false
    startTime := now
    cards := s.cards.map fun c => { c with matched := false }
    elems := s.elems.map fun _ =>
      { flipped := false, matchedCls := false, disabled := false } }

/-- Embeds `handleCardClick(cardElement)` for the card at index `i` (the click
listener already requires `gameStarted && !gameEnded`): flipped, matched
or disabled cards are rejected, as is any click while two cards are
already up; each rejection returns before any mutation. An accepted click
flips the element and records the reference; the second card of a pair
counts a move, disables the rest of the grid and schedules the
`checkForMatch` timeout. -/
def handleCardClick (s : MState) (i : Nat) : MState :=
  if !s.gameStarted || s.gameEnded then s
  else match s.elems[i]?, s.cards[i]? with
    | some e, some c =>
      if e.flipped || e.matchedCls || e.disabled then s
      else if s.flippedCards.length ≥ 2 then s
      else
        let elems := s.elems.set i { e with flipped := true }
        let fc := s.flippedCards ++ [{ gen := s.gen, idx := i, symbol := c.symbol }]
        if fc.length = 2 then
          { s with
            elems := disableAllCards elems
            flippedCards := fc
            moveCount := s.moveCount + 1
            pending := true }
        else { s with elems := elems, flippedCards := fc }
    | _, _ => s

/-- Embeds `calculateFinalScore(timeTaken)`: base 1000, a 1000 perfect-game bonus
when the move count equals the pair count, a move bonus and a time bonus
each capped below at 0. -/
def calculateFinalScore (moveCount : Nat) (timeTaken : Int) : Int :=
  let score : Int := 1000
  let moveBonus := max 0 (500 - ((moveCount : Int) - (TOTAL_PAIRS : Int)) * 25)
  let timeBonus := max 0 (500 - timeTaken * 5)
  let score := if moveCount = TOTAL_PAIRS then score + 1000 else score
  score + moveBonus + timeBonus

/-- Embeds `endGame()`: mark the game ended, compute the elapsed seconds, save
the final score and increment games played. -/
def endGame (s : MState) (now : Nat) : MState × List Effect :=
  let s := { s with gameEnded := true }
  let timeTaken : Int := (now : Int) - (s.startTime : Int)
  let finalScore := calculateFinalScore s.moveCount timeTaken
  (s, [.saveScore finalScore, .incrementGamesPlayed])

/-- Writes through a possibly stale card reference: only a reference into
the current generation aliases the current `cards` array. -/
def setCardMatched (s : MState) (f : Flipped) : MState :=
  if f.gen = s.gen then
    { s with cards := s.cards.modify (fun c => { c with matched := true }) f.idx }
  else s

/-- Writes through a possibly stale element reference. -/
def setElemMatched (s : MState) (f : Flipped) : MState :=
  if f.gen = s.gen then
    { s with elems := s.elems.modify (fun e => { e with matchedCls := true }) f.idx }
  else s

/-- Clears the flipped class through a possibly stale element reference. -/
def clearElemFlipped (s : MState) (f : Flipped) : MState :=
  if f.gen = s.gen then
    { s with elems := s.elems.modify (fun e => { e with flipped := false }) f.idx }
  else s

/-- Embeds `handleMatch(card1, card2)`: mark both references matched, bump
`matchedPairs`, and either finish the game at 4 pairs or re-enable the
current grid. -/
def handleMatch (s : MState) (c1 c2 : Flipped) (now : Nat) :
    MState × List Effect :=
  let s := setElemMatched (setElemMatched s c1) c2
  let s := setCardMatched (setCardMatched s c1) c2
  let s := { s with matchedPairs := s.matchedPairs + 1 }
  if s.matchedPairs = TOTAL_PAIRS then endGame s now
  else ({ s with elems := enableAllCards s.elems }, [])

/-- Embeds `handleNoMatch(card1, card2)`: flip both references back and re-enable
the current grid. -/
def handleNoMatch (s : MState) (c1 c2 : Flipped) : MState :=
  let s := clearElemFlipped (clearElemFlipped s c1) c2
  { s with elems := enableAllCards s.elems }

/-- The `checkForMatch` timeout firing at time `now`: it destructures the
first two entries of `flippedCards`, resolves match or no-match, and
clears `flippedCards`. Nothing in it checks the game state or the
generation, so it also fires against a newer round. With fewer than two
entries recorded the JS destructuring faults and the wrapper catch leaves
the state alone. -/
def timerFire (s : MState) (now : Nat) : MState × List Effect :=
  if !s.pending then (s, [])
  else match s.flippedCards with
    | c1 :: c2 :: _ =>
      let s := { s with pending := false }
      let (s, eff) :=
        if c1.symbol = c2.symbol then handleMatch s c1 c2 now
        else (handleNoMatch s c1 c2, [])
      ({ s with flippedCards := [] }, eff)
    | _ => ({ s with pending := false }, [])

/-- Embeds `startNewGame()`: clear the started/ended flags, rebuild the grid and
zero the counters. Neither `flippedCards` nor the scheduled `checkForMatch`
timeout is touched (`stopTimer` only clears the display interval). -/
def startNewGame (s : MState) (deck : List MCard) : MState :=
  let s := { s with gameStarted := false, gameEnded := false }
  let s := initializeGameGrid s deck
  { s with moveCount := 0, matchedPairs := 0 }

/-- The state after page load: grid built from the deck, game not yet
started. -/
def initState (deck : List MCard) : MState :=
  initializeGameGrid
    { cards := [], elems := [], flippedCards := [], matchedPairs := 0
      moveCount := 0, gameStarted := false, gameEnded := false
      startTime := 0, gen := 0, pending := false } deck

end Memory

namespace Pages

/-- The `handleSetName` handler, defined identically in each of the three
game pages (rock-paper-scissors, memory, number-guessing scripts): trim,
reject an empty or over-20-character name with a message, otherwise pass
the trimmed name to `setCurrentUser`. The result is the name handed to the
store, `none` when the handler returns without calling it. -/
def handleSetName (input : String) : Option String :=
  let name := jsTrim input
  if name.length = 0 then none
  else if name.length > 20 then none
  else some name

end Pages

namespace Store

/-- The module-state assignment a `setCurrentUser` call performs:
on success the new profile overwrites `currentUser`; a thrown validation
error leaves it untouched. -/
def applySetCurrentUser (cur : Option UserProfile) (name : String)
    (now : Nat) : Option UserProfile :=
  match setCurrentUser name now with
  | .ok p => some p
  | .error _ => cur

end Store

/-- The leaderboard invariant of the spec: at most 10 entries, sorted
non-increasing by score. -/
def boardInv (l : List Store.ScoreEntry) : Prop :=
  l.length ≤ 10 ∧ List.Sorted Store.scoreGe l

/-- Memory Match run for the stale-timer scenario: start a game, flip the
two cards of a matching pair (scheduling the resolution timeout), then hit
new-game before the timeout fires. -/
def memTraceMid : Memory.MState :=
  Memory.startNewGame
    (Memory.handleCardClick
      (Memory.handleCardClick
        (Memory.startGame (Memory.initState Memory.cardData) 0) 0) 1)
    Memory.cardData

section Claims

theorem boardInv_nil : boardInv [] := by
  constructor
  · simp
  · exact List.sorted_nil

theorem boardInv_save (scores : Store.Scores) (c : Store.SaveCall)
    (h : ∀ g, boardInv (scores g)) (g : String) :
    boardInv ((Store.saveGameScore scores c.gameName c.score c.player
      c.date c.extra).1 g) := by
  have hval : (Store.saveGameScore scores c.gameName c.score c.player
        c.date c.extra).1 g
      = if g = c.gameName then
          (List.insertionSort Store.scoreGe (scores c.gameName ++
            [Store.mkScoreEntry c.player c.score c.date c.extra])).take 10
        else scores g := rfl
  rw [hval]
  by_cases hg : g = c.gameName
  · rw [if_pos hg]
    refine ⟨?_, ?_⟩
    · rw [List.length_take]
      exact min_le_left _ _
    · exact List.Pairwise.sublist (List.take_sublist _ _)
        (List.sorted_insertionSort Store.scoreGe _)
  · rw [if_neg hg]
    exact h g

theorem boardInv_runSaves (calls : List Store.SaveCall) (scores : Store.Scores)
    (h : ∀ g, boardInv (scores g)) (g : String) :
    boardInv (Store.runSaves scores calls g) := by
  induction calls generalizing scores with
  | nil => exact h g
  | cons c cs ih =>
      exact ih _ (boardInv_save scores c h)

/-- Claim C1: starting from a fresh store, after any sequence of
`saveScore` calls, every game name holds a leaderboard of at most 10
entries sorted non-increasing by score, and `getLeaderboard` is exactly
that stored sequence. -/
theorem saveScore_leaderboard_sorted_capped
    (calls : List Store.SaveCall) (g : String) :
    (Store.getLeaderboard (Store.runSaves Store.initScores calls) g).length ≤ 10 ∧
    List.Sorted Store.scoreGe
      (Store.getLeaderboard (Store.runSaves Store.initScores calls) g) ∧
    Store.getLeaderboard (Store.runSaves Store.initScores calls) g =
      Store.runSaves Store.initScores calls g := by
  have h := boardInv_runSaves calls Store.initScores (fun _ => boardInv_nil) g
  exact ⟨h.1, h.2, rfl⟩

theorem setCurrentUser_eq (name : String) (now : Nat) :
    Store.setCurrentUser name now =
      if name = "" then .error .invalidName
      else if (jsTrim name).length = 0 then .error .emptyName
      else if (jsTrim name).length > 50 then .error .nameTooLong
      else .ok { name := jsTrim name, joinDate := now, totalGamesPlayed := 0 } :=
  rfl

/-- Claim C2: `setCurrentUser` errors exactly when the trimmed name is
empty or longer than 50 characters; otherwise it returns the profile with
the trimmed name, `joinDate = now` and `totalGamesPlayed = 0`, and that
profile overwrites whatever profile was current. -/
theorem setCurrentUser_contract (name : String) (now : Nat)
    (cur : Option Store.UserProfile) :
    ((∃ e, Store.setCurrentUser name now = Except.error e) ↔
      ((jsTrim name).length = 0 ∨ 50 < (jsTrim name).length)) ∧
    (¬((jsTrim name).length = 0 ∨ 50 < (jsTrim name).length) →
      Store.setCurrentUser name now = Except.ok
        { name := jsTrim name, joinDate := now, totalGamesPlayed := 0 } ∧
      Store.applySetCurrentUser cur name now = some
        { name := jsTrim name, joinDate := now, totalGamesPlayed := 0 }) := by
  by_cases hb : (jsTrim name).length = 0 ∨ 50 < (jsTrim name).length
  · refine ⟨⟨fun _ => hb, fun _ => ?_⟩, fun hcon => absurd hb hcon⟩
    by_cases hn : name = ""
    · exact ⟨.invalidName, by rw [setCurrentUser_eq, if_pos hn]⟩
    · rcases hb with h0 | h50
      · exact ⟨.emptyName, by rw [setCurrentUser_eq, if_neg hn, if_pos h0]⟩
      · have h0 : ¬(jsTrim name).length = 0 := by omega
        exact ⟨.nameTooLong,
          by rw [setCurrentUser_eq, if_neg hn, if_neg h0, if_pos h50]⟩
  · push_neg at hb
    obtain ⟨h0, h50⟩ := hb
    have hn : name ≠ "" := by
      intro h
      subst h
      exact h0 (by decide)
    have hok : Store.setCurrentUser name now = Except.ok
        { name := jsTrim name, joinDate := now, totalGamesPlayed := 0 } := by
      rw [setCurrentUser_eq, if_neg hn, if_neg h0, if_neg (by omega)]
    refine ⟨⟨?_, fun hbad => absurd hbad (by push_neg; exact ⟨h0, h50⟩)⟩,
      fun _ => ⟨hok, ?_⟩⟩
    · rintro ⟨e, he⟩
      rw [hok] at he
      cases he
    · simp [Store.applySetCurrentUser, hok]

theorem setCurrentUser_contract_witness :
    Store.setCurrentUser " Alice " 7 = Except.ok
      { name := jsTrim " Alice ", joinDate := 7, totalGamesPlayed := 0 } ∧
    Store.applySetCurrentUser none " Alice " 7 = some
      { name := jsTrim " Alice ", joinDate := 7, totalGamesPlayed := 0 } :=
  (setCurrentUser_contract " Alice " 7 none).2 (by decide)

theorem handleGuess_eq (s : Guess.GState) (input : Guess.GuessInput)
    (now : Nat) :
    Guess.handleGuess s input now =
      if !s.gameStarted || s.gameEnded then (s, [])
      else match input with
        | none => (s, [])
        | some g =>
          if g < 1 || g > 100 then (s, [])
          else if s.secretNumber < 1 || s.secretNumber > 100 then (s, [])
          else if g = s.secretNumber then
            ({ s with attemptsLeft := s.attemptsLeft - 1, gameEnded := true },
             [.saveScore (Guess.calculateScore (s.attemptsLeft - 1)
                ((now : Int) - (s.startTime : Int))),
              .incrementGamesPlayed])
          else if s.attemptsLeft - 1 = 0 then
            ({ s with attemptsLeft := s.attemptsLeft - 1, gameEnded := true }, [])
          else ({ s with attemptsLeft := s.attemptsLeft - 1 }, []) := rfl

/-- Claim C3 counterexample: with secret 50 and the guesses 10, 90, 40,
60, 50 (winning guess at 0 elapsed seconds), the game does end Won on the
5th guess, but `attemptsLeft` is 0 rather than 1 (the decrement happens
before the win check) and the recorded score is 750, not the claimed
1 * 100 + max 0 (500 - 0) + 4 * 50 = 800. -/
theorem guess_scenario_counterexample :
    (Guess.scenarioState 0).1.gameEnded = true ∧
    ¬((Guess.scenarioState 0).1.attemptsLeft = 1) ∧
    (Guess.scenarioState 0).2 =
      [Guess.Effect.saveScore 750, Guess.Effect.incrementGamesPlayed] ∧
    ¬((750 : Int) = 1 * 100 + max 0 (500 - (0 : Int)) + 4 * 50) := by
  decide

/-- Claim C3 amended: with secret 50 and the guesses 10, 90, 40, 60, 50,
the game ends Won on the 5th guess with `attemptsLeft` 0, and the recorded
score is 0 * 100 + max 0 (500 - elapsedSeconds) + 5 * 50. -/
theorem guess_scenario_amended (t : Nat) :
    (Guess.scenarioState t).1.gameEnded = true ∧
    (Guess.scenarioState t).1.attemptsLeft = 0 ∧
    (Guess.scenarioState t).2 =
      [Guess.Effect.saveScore (0 * 100 + max 0 (500 - (t : Int)) + 5 * 50),
       Guess.Effect.incrementGamesPlayed] := by
  refine ⟨?_, ?_, ?_⟩ <;>
    simp [Guess.scenarioState, Guess.runGuesses, Guess.handleGuess,
      Guess.startGame, Guess.calculateScore]

theorem handleGuess_invalid_eq (s : Guess.GState) (input : Guess.GuessInput)
    (now : Nat)
    (h : input = none ∨ ∃ g, input = some g ∧ (g < 1 ∨ 100 < g)) :
    Guess.handleGuess s input now = (s, []) := by
  rw [handleGuess_eq]
  split
  · rfl
  · rcases h with rfl | ⟨g, rfl, hg⟩
    · rfl
    · have hb : (decide (g < 1) || decide (g > 100)) = true := by
        simp only [Bool.or_eq_true, decide_eq_true_eq]
        omega
      simp only [hb, if_true]

/-- Claim C6: a guess that does not parse or lies outside `[1, 100]` is
rejected with no state change and no effect, and any step that changes
`attemptsLeft` was a parsed guess within `[1, 100]`. -/
theorem guess_invalid_rejected (s : Guess.GState) (input : Guess.GuessInput)
    (now : Nat) :
    ((input = none ∨ ∃ g, input = some g ∧ (g < 1 ∨ 100 < g)) →
      Guess.handleGuess s input now = (s, [])) ∧
    ((Guess.handleGuess s input now).1.attemptsLeft ≠ s.attemptsLeft →
      ∃ g, input = some g ∧ 1 ≤ g ∧ g ≤ 100) := by
  constructor
  · exact handleGuess_invalid_eq s input now
  · intro hne
    cases input with
    | none =>
        exact absurd (congrArg (fun p => p.1.attemptsLeft)
          (handleGuess_invalid_eq s none now (Or.inl rfl))) hne
    | some g =>
        by_cases h1 : 1 ≤ g ∧ g ≤ 100
        · exact ⟨g, rfl, h1.1, h1.2⟩
        · have hinv : g < 1 ∨ 100 < g := by omega
          exact absurd (congrArg (fun p => p.1.attemptsLeft)
            (handleGuess_invalid_eq s (some g) now (Or.inr ⟨g, rfl, hinv⟩))) hne

theorem guess_invalid_rejected_witness :
    Guess.handleGuess
      { secretNumber := 50, attemptsLeft := 5, gameStarted := true,
        gameEnded := false, startTime := 0 } (some 500) 3 =
      ({ secretNumber := 50, attemptsLeft := 5, gameStarted := true,
         gameEnded := false, startTime := 0 }, []) :=
  (guess_invalid_rejected _ (some 500) 3).1
    (Or.inr ⟨500, rfl, Or.inr (by decide)⟩)

/-- Claim C7: a guess step emits store effects only when it is the
winning guess (in which case they are exactly the save of the computed
score followed by the games-played increment); every non-winning guess,
including the one that exhausts the attempts and loses the game, emits
nothing. -/
theorem guess_save_only_on_won (s : Guess.GState) (input : Guess.GuessInput)
    (now : Nat) :
    ((Guess.handleGuess s input now).2 ≠ [] →
      ∃ g, input = some g ∧ g = s.secretNumber ∧
        (Guess.handleGuess s input now).1.gameEnded = true ∧
        (Guess.handleGuess s input now).2 =
          [Guess.Effect.saveScore (Guess.calculateScore (s.attemptsLeft - 1)
            ((now : Int) - (s.startTime : Int))),
           Guess.Effect.incrementGamesPlayed]) ∧
    (∀ g, input = some g → g ≠ s.secretNumber →
      (Guess.handleGuess s input now).2 = []) := by
  rw [handleGuess_eq]
  constructor
  · intro hne
    split at hne
    · exact absurd rfl hne
    · cases input with
      | none => exact absurd rfl hne
      | some g =>
          refine ⟨g, rfl, ?_⟩
          dsimp only at hne ⊢
          split_ifs at hne ⊢ with h1 h2 h3
          · exact absurd rfl hne
          · exact absurd rfl hne
          · exact ⟨h3, rfl, rfl⟩
          · exact absurd rfl hne
          · exact absurd rfl hne
  · intro g hg hne
    subst hg
    split
    · rfl
    · dsimp only
      split_ifs
      · rfl
      · rfl
      · rfl
      · rfl

theorem guess_save_only_on_won_witness :
    (Guess.handleGuess
      { secretNumber := 50, attemptsLeft := 1, gameStarted := true,
        gameEnded := false, startTime := 0 } (some 10) 9).2 = [] :=
  (guess_save_only_on_won _ (some 10) 9).2 10 rfl (by decide)

/-- Claim C4 failing run: start a game, flip the two cards of a matching
pair (scheduling the 1-second resolution timeout), press new-game before
it fires, then let it fire. `startNewGame` neither cancels the timeout nor
clears `flippedCards`, and `checkForMatch` checks no generation token, so
the stale callback raises the `matchedPairs` of the new round from 0 to 1 even
though no card of the new round is matched. -/
theorem memory_stale_timer_mutates_new_round :
    memTraceMid.matchedPairs = 0 ∧
    memTraceMid.gameStarted = false ∧
    memTraceMid.pending = true ∧
    (Memory.timerFire memTraceMid 5).1.matchedPairs = 1 ∧
    (Memory.timerFire memTraceMid 5).1.cards.all
      (fun c => !c.matched) = true := by
  decide

/-- Claim C5: clicking a card whose element is already flipped, already
matched or disabled, or clicking any card while two cards are already
face-up awaiting resolution, is rejected with no state change at all; in
particular `moveCount`, `matchedPairs` and every matched flag are
untouched, and clicking the same already-matched card twice never changes
`moveCount`. -/
theorem memory_click_rejected (s : Memory.MState) (i : Nat)
    (h : (∃ e, s.elems[i]? = some e ∧
            (e.flipped = true ∨ e.matchedCls = true ∨ e.disabled = true)) ∨
         2 ≤ s.flippedCards.length) :
    Memory.handleCardClick s i = s := by
  rcases hel : s.elems[i]? with _ | e
  · unfold Memory.handleCardClick
    split
    · rfl
    · rw [hel]
  · rcases hc : s.cards[i]? with _ | c
    · unfold Memory.handleCardClick
      split
      · rfl
      · rw [hel, hc]
    · unfold Memory.handleCardClick
      split
      · rfl
      · rw [hel, hc]
        dsimp only
        by_cases hflag : (e.flipped || e.matchedCls || e.disabled) = true
        · rw [if_pos hflag]
        · rw [if_neg hflag]
          have hlen : 2 ≤ s.flippedCards.length := by
            rcases h with ⟨e2, he2, hf⟩ | hlen
            · rw [hel] at he2
              cases he2
              exfalso
              apply hflag
              rcases hf with hf | hf | hf <;> simp [hf]
            · exact hlen
          rw [if_pos hlen]

theorem memory_click_rejected_witness :
    Memory.handleCardClick
      { cards := Memory.cardData, elems :=
          { flipped := false, matchedCls := true, disabled := false } ::
            Memory.freshElems 7,
        flippedCards := [], matchedPairs := 1, moveCount := 3,
        gameStarted := true, gameEnded := false, startTime := 0,
        gen := 1, pending := false } 0 =
      { cards := Memory.cardData, elems :=
          { flipped := false, matchedCls := true, disabled := false } ::
            Memory.freshElems 7,
        flippedCards := [], matchedPairs := 1, moveCount := 3,
        gameStarted := true, gameEnded := false, startTime := 0,
        gen := 1, pending := false } :=
  memory_click_rejected _ 0
    (Or.inl ⟨{ flipped := false, matchedCls := true, disabled := false },
      by decide, Or.inr (Or.inl rfl)⟩)

theorem calculateFinalScore_closed (m : Nat) (t : Int) :
    Memory.calculateFinalScore m t =
      1000 + max 0 (500 - ((m : Int) - 4) * 25) + max 0 (500 - t * 5) +
        (if m = 4 then (1000 : Int) else 0) := by
  unfold Memory.calculateFinalScore Memory.TOTAL_PAIRS
  by_cases hm : m = 4
  · simp only [hm, if_pos rfl]
    push_cast
    ring
  · simp only [hm, if_neg hm]
    push_cast
    ring

theorem setCardMatched_as_cards (s : Memory.MState) (f : Memory.Flipped) :
    ∃ cs, Memory.setCardMatched s f = { s with cards := cs } := by
  unfold Memory.setCardMatched
  split
  · exact ⟨_, rfl⟩
  · exact ⟨s.cards, rfl⟩

theorem setElemMatched_as_elems (s : Memory.MState) (f : Memory.Flipped) :
    ∃ es, Memory.setElemMatched s f = { s with elems := es } := by
  unfold Memory.setElemMatched
  split
  · exact ⟨_, rfl⟩
  · exact ⟨s.elems, rfl⟩

/-- Claim C9: when the resolution timeout completes the game (the two
face-up cards match and `matchedPairs` reaches 4), the effects are exactly
a save of 1000 + max 0 (500 - (moves - 4) * 25) + max 0 (500 -
elapsedSeconds * 5) + 1000 more exactly when moves = 4, followed by the
games-played increment. -/
theorem memory_completion_score (s : Memory.MState)
    (c1 c2 : Memory.Flipped) (rest : List Memory.Flipped) (now : Nat)
    (hp : s.pending = true)
    (hfc : s.flippedCards = c1 :: c2 :: rest)
    (hsym : c1.symbol = c2.symbol)
    (hmp : s.matchedPairs = 3) :
    (Memory.timerFire s now).2 =
      [Memory.Effect.saveScore (1000 +
        max 0 (500 - ((s.moveCount : Int) - 4) * 25) +
        max 0 (500 - ((now : Int) - (s.startTime : Int)) * 5) +
        (if s.moveCount = 4 then (1000 : Int) else 0)),
       Memory.Effect.incrementGamesPlayed] := by
  unfold Memory.timerFire
  rw [hp]
  simp only [Bool.not_true, Bool.false_eq_true, if_false]
  split
  case _ d1 d2 tail heq =>
    rw [hfc] at heq
    injection heq with h1 hrest
    injection hrest with h2 _
    subst h1
    subst h2
    rw [if_pos hsym]
    unfold Memory.handleMatch
    obtain ⟨es1, he1⟩ :=
      setElemMatched_as_elems { s with pending := false } c1
    rw [he1]
    dsimp only
    obtain ⟨es2, he2⟩ :=
      setElemMatched_as_elems { s with pending := false, elems := es1 } c2
    rw [he2]
    dsimp only
    obtain ⟨cs1, hc1⟩ :=
      setCardMatched_as_cards { s with pending := false, elems := es2 } c1
    rw [hc1]
    dsimp only
    obtain ⟨cs2, hc2⟩ :=
      setCardMatched_as_cards
        { s with pending := false, elems := es2, cards := cs1 } c2
    rw [hc2]
    dsimp only
    rw [hmp]
    rw [if_pos (by norm_num [Memory.TOTAL_PAIRS])]
    unfold Memory.endGame
    dsimp only
    rw [calculateFinalScore_closed]
  case _ hne =>
    exact absurd hfc (by exact fun h => hne c1 c2 rest h)

theorem memory_completion_score_witness :
    (Memory.timerFire
      { cards := Memory.cardData, elems := Memory.freshElems 8,
        flippedCards := [⟨1, 0, 2⟩, ⟨1, 5, 2⟩], matchedPairs := 3,
        moveCount := 5, gameStarted := true, gameEnded := false,
        startTime := 0, gen := 1, pending := true } 20).2 =
      [Memory.Effect.saveScore (1000 +
        max 0 (500 - ((5 : Int) - 4) * 25) +
        max 0 (500 - ((20 : Int) - (0 : Int)) * 5) +
        (if (5 : Nat) = 4 then (1000 : Int) else 0)),
       Memory.Effect.incrementGamesPlayed] :=
  memory_completion_score _ ⟨1, 0, 2⟩ ⟨1, 5, 2⟩ [] 20 rfl rfl rfl rfl

/-- Claim C8: when either side has reached the 3-point threshold,
`checkGameWinner` ends the game and emits exactly a save of
(1000 if the player won, else 100) + (3 - min(playerScore, computerScore))
* 100 + playerScore * 50, followed by the games-played increment — for
wins and losses alike. -/
theorem rps_threshold_score (s : RPS.RState)
    (h : 3 ≤ s.playerScore ∨ 3 ≤ s.computerScore) :
    (RPS.checkGameWinner s).1.gameEnded = true ∧
    (RPS.checkGameWinner s).2 =
      [RPS.Effect.saveScore
        ((if 3 ≤ s.playerScore then (1000 : Int) else 100) +
          (3 - min s.playerScore s.computerScore) * 100 +
          s.playerScore * 50),
       RPS.Effect.incrementGamesPlayed] := by
  unfold RPS.checkGameWinner RPS.endGame RPS.calculateFinalScore
    RPS.WINNING_SCORE
  simp only [ge_iff_le]
  by_cases hp : 3 ≤ s.playerScore
  · rw [if_pos hp, if_pos hp]
    exact ⟨rfl, rfl⟩
  · rcases h with h | h
    · exact absurd h hp
    · rw [if_neg hp, if_neg hp, if_pos h]
      exact ⟨rfl, rfl⟩

theorem rps_threshold_score_witness :
    (RPS.checkGameWinner
      { playerScore := 3, computerScore := 1, currentRound := 4,
        gameStarted := true, gameEnded := false }).1.gameEnded = true ∧
    (RPS.checkGameWinner
      { playerScore := 3, computerScore := 1, currentRound := 4,
        gameStarted := true, gameEnded := false }).2 =
      [RPS.Effect.saveScore
        ((if 3 ≤ (3 : Int) then (1000 : Int) else 100) +
          (3 - min (3 : Int) 1) * 100 + (3 : Int) * 50),
       RPS.Effect.incrementGamesPlayed] :=
  rps_threshold_score _ (Or.inl (by decide))

/-- Claim C10: the shared page handler passes only trimmed names of at
most 20 characters on to `setCurrentUser`; any input whose trimmed length
is 21 to 50 — which `setCurrentUser` itself accepts — is rejected by the
handler before the store is called, on all three game pages. -/
theorem handleSetName_caps_at_20 (input : String) (now : Nat) :
    (∀ n, Pages.handleSetName input = some n → n.length ≤ 20) ∧
    (20 < (jsTrim input).length → (jsTrim input).length ≤ 50 →
      Pages.handleSetName input = none ∧
      Store.setCurrentUser input now = Except.ok
        { name := jsTrim input, joinDate := now, totalGamesPlayed := 0 }) := by
  constructor
  · intro n hn
    unfold Pages.handleSetName at hn
    dsimp only at hn
    split_ifs at hn with h0 h20
    cases hn
    omega
  · intro h20 h50
    have hn : input ≠ "" := by
      intro he
      rw [he] at h20
      revert h20
      decide
    constructor
    · unfold Pages.handleSetName
      dsimp only
      rw [if_neg (by omega), if_pos h20]
    · rw [setCurrentUser_eq, if_neg hn, if_neg (by omega), if_neg (by omega)]

theorem handleSetName_caps_at_20_witness :
    Pages.handleSetName "aaaaaaaaaaaaaaaaaaaaa" = none ∧
    Store.setCurrentUser "aaaaaaaaaaaaaaaaaaaaa" 0 = Except.ok
      { name := jsTrim "aaaaaaaaaaaaaaaaaaaaa", joinDate := 0,
        totalGamesPlayed := 0 } :=
  (handleSetName_caps_at_20 "aaaaaaaaaaaaaaaaaaaaa" 0).2
    (by decide) (by decide)

end Claims
